import Mathlib

/-!
Verification of the client-side index/query data model of
`pyravendb/data/indexes.py` (RavenDB Python client).

The Python module is shallowly embedded: each `Enum` class becomes a Lean
inductive with a `value` function (the member's canonical wire string, which
`__str__` returns), each Python class becomes a structure whose constructor
(`__init__`) is an explicit `init` function, Python `None` becomes `Option`,
Python dynamic failures (AttributeError, IndexError, TypeError, KeyError)
become `Except PyError`, and the JSON-shaped dicts produced by `to_json`
become values of an inductive `JValue`.
-/

namespace PyRavenDB

/-- The dynamic errors the embedded Python code can raise. -/
inductive PyError where
  | attributeError
  | indexError
  | typeError
  | keyError
deriving DecidableEq, Repr

/-- `class IndexLockMode(Enum)` — members `unlock`, `locked_ignore`,
`locked_error`, `side_by_side`. -/
inductive IndexLockMode where
  | unlock
  | locked_ignore
  | locked_error
  | side_by_side
deriving DecidableEq, Fintype, Repr

/-- The `value` attribute of each `IndexLockMode` member, as assigned in the
class body (`unlock = "Unlock"`, ...). -/
def IndexLockMode.value : IndexLockMode → String
  | .unlock => "Unlock"
  | .locked_ignore => "LockedIgnore"
  | .locked_error => "LockedError"
  | .side_by_side => "SideBySide"

/-- `IndexLockMode.__str__`: `return self.value`. -/
def IndexLockMode.pyStr (m : IndexLockMode) : String := m.value

/-- `class IndexPriority(Enum)` — members `low`, `normal`, `high`. -/
inductive IndexPriority where
  | low
  | normal
  | high
deriving DecidableEq, Fintype, Repr

/-- The `value` attribute of each `IndexPriority` member. -/
def IndexPriority.value : IndexPriority → String
  | .low => "Low"
  | .normal => "Normal"
  | .high => "High"

/-- `IndexPriority.__str__`: `return self.value`. -/
def IndexPriority.pyStr (m : IndexPriority) : String := m.value

/-- `class SortOptions(Enum)` — members `none`, `str`, `numeric`. -/
inductive SortOptions where
  | none
  | str
  | numeric
deriving DecidableEq, Fintype, Repr

/-- The `value` attribute of each `SortOptions` member. -/
def SortOptions.value : SortOptions → String
  | .none => "None"
  | .str => "String"
  | .numeric => "Numeric"

/-- `SortOptions.__str__`: `return self.value`. -/
def SortOptions.pyStr (m : SortOptions) : String := m.value

/-- `class FieldIndexing(Enum)` — members `no`, `analyzed`, `not_analyzed`,
`default`. -/
inductive FieldIndexing where
  | no
  | analyzed
  | not_analyzed
  | default
deriving DecidableEq, Fintype, Repr

/-- The `value` attribute of each `FieldIndexing` member. -/
def FieldIndexing.value : FieldIndexing → String
  | .no => "No"
  | .analyzed => "Analyzed"
  | .not_analyzed => "NotAnalyzed"
  | .default => "Default"

/-- `FieldIndexing.__str__`: `return self.value`. -/
def FieldIndexing.pyStr (m : FieldIndexing) : String := m.value

/-- `class FieldTermVector(Enum)` — members `no`, `yes`, `with_positions`,
`with_offsets`, `with_positions_and_offsets`. -/
inductive FieldTermVector where
  | no
  | yes
  | with_positions
  | with_offsets
  | with_positions_and_offsets
deriving DecidableEq, Fintype, Repr

/-- The `value` attribute of each `FieldTermVector` member. -/
def FieldTermVector.value : FieldTermVector → String
  | .no => "No"
  | .yes => "Yes"
  | .with_positions => "WithPositions"
  | .with_offsets => "WithOffsets"
  | .with_positions_and_offsets => "WithPositionsAndOffsets"

/-- `FieldTermVector.__str__`: `return self.value`. -/
def FieldTermVector.pyStr (m : FieldTermVector) : String := m.value

/-- `class FieldStorage(Enum)` — members `yes`, `no`. -/
inductive FieldStorage where
  | yes
  | no
deriving DecidableEq, Fintype, Repr

/-- The `value` attribute of each `FieldStorage` member. -/
def FieldStorage.value : FieldStorage → String
  | .yes => "Yes"
  | .no => "No"

/-- `FieldStorage.__str__`: `return self.value`. -/
def FieldStorage.pyStr (m : FieldStorage) : String := m.value

/-- `class QueryOperator(Enum)` — members `OR`, `AND`. -/
inductive QueryOperator where
  | OR
  | AND
deriving DecidableEq, Fintype, Repr

/-- The `value` attribute of each `QueryOperator` member. `QueryOperator`
defines no `__str__`, so its canonical wire token is the `value` itself. -/
def QueryOperator.value : QueryOperator → String
  | .OR => "OR"
  | .AND => "AND"

/-- C9: every enumeration member renders to its exact documented canonical
wire token (rendering goes through `__str__`, which returns `self.value`),
and within each enumeration two distinct members never share a string
(each render function is injective). -/
theorem C9_enum_render_canonical_and_injective :
    (IndexLockMode.unlock.pyStr = "Unlock" ∧
      IndexLockMode.locked_ignore.pyStr = "LockedIgnore" ∧
      IndexLockMode.locked_error.pyStr = "LockedError" ∧
      IndexLockMode.side_by_side.pyStr = "SideBySide") ∧
    (IndexPriority.low.pyStr = "Low" ∧
      IndexPriority.normal.pyStr = "Normal" ∧
      IndexPriority.high.pyStr = "High") ∧
    (SortOptions.none.pyStr = "None" ∧
      SortOptions.str.pyStr = "String" ∧
      SortOptions.numeric.pyStr = "Numeric") ∧
    (FieldIndexing.no.pyStr = "No" ∧
      FieldIndexing.analyzed.pyStr = "Analyzed" ∧
      FieldIndexing.not_analyzed.pyStr = "NotAnalyzed" ∧
      FieldIndexing.default.pyStr = "Default") ∧
    (FieldTermVector.no.pyStr = "No" ∧
      FieldTermVector.yes.pyStr = "Yes" ∧
      FieldTermVector.with_positions.pyStr = "WithPositions" ∧
      FieldTermVector.with_offsets.pyStr = "WithOffsets" ∧
      FieldTermVector.with_positions_and_offsets.pyStr = "WithPositionsAndOffsets") ∧
    (FieldStorage.yes.pyStr = "Yes" ∧ FieldStorage.no.pyStr = "No") ∧
    (QueryOperator.OR.value = "OR" ∧ QueryOperator.AND.value = "AND") ∧
    Function.Injective IndexLockMode.pyStr ∧
    Function.Injective IndexPriority.pyStr ∧
    Function.Injective SortOptions.pyStr ∧
    Function.Injective FieldIndexing.pyStr ∧
    Function.Injective FieldTermVector.pyStr ∧
    Function.Injective FieldStorage.pyStr ∧
    Function.Injective QueryOperator.value := by
  refine ⟨⟨rfl, rfl, rfl, rfl⟩, ⟨rfl, rfl, rfl⟩, ⟨rfl, rfl, rfl⟩,
    ⟨rfl, rfl, rfl, rfl⟩, ⟨rfl, rfl, rfl, rfl, rfl⟩, ⟨rfl, rfl⟩, ⟨rfl, rfl⟩,
    ?_, ?_, ?_, ?_, ?_, ?_, ?_⟩ <;> decide

/-- Python truthiness of an optional string: `None` and `""` are falsy. -/
def pyTruthyStr : Option String → Bool
  | Option.none => false
  | Option.some s => if s = "" then false else true

/-- The runtime value held in `IndexDefinition.maps`: `__init__` always stores
a tuple of strings, but the `map` getter also guards `isinstance(self.maps,
str)` and the `map` setter calls the `set` methods `pop`/`add`, so the
embedding keeps the three runtime shapes apart. -/
inductive PyColl where
  | tup (xs : List String)
  | pyset (xs : List String)
  | str (s : String)
deriving DecidableEq, Repr

/-- `len(...)` on the three shapes `maps` can hold. -/
def PyColl.pyLen : PyColl → Nat
  | .tup xs => xs.length
  | .pyset xs => xs.length
  | .str s => s.length

/-- `.pop()` with no argument: a `set` method removing an unspecified element
(modelled as the list head; a claim must not depend on which one).
Tuples and strings have no `pop` attribute, so the call raises
`AttributeError`; an empty set raises `KeyError`. -/
def PyColl.pyPop : PyColl → Except PyError PyColl
  | .pyset [] => Except.error PyError.keyError
  | .pyset (_ :: xs) => Except.ok (PyColl.pyset xs)
  | .tup _ => Except.error PyError.attributeError
  | .str _ => Except.error PyError.attributeError

/-- `.add(value)`: a `set` method (no-op when the value is already present).
Tuples and strings have no `add` attribute: `AttributeError`. -/
def PyColl.pyAdd : PyColl → String → Except PyError PyColl
  | .pyset xs, v => Except.ok (PyColl.pyset (if v ∈ xs then xs else xs ++ [v]))
  | .tup _, _ => Except.error PyError.attributeError
  | .str _, _ => Except.error PyError.attributeError

/-- Inserting one element while building a `set`: kept only if new. -/
def pySetInsert (xs : List String) (x : String) : List String :=
  if x ∈ xs then xs else xs ++ [x]

/-- `set(index_map)` for a collection argument: duplicates dropped. CPython's
set iteration order is unspecified; modelled as first-occurrence order (no
claim depends on the order). -/
def pySetDedup (xs : List String) : List String := xs.foldl pySetInsert []

/-- The per-field options object `IndexFieldOptions`: every attribute is
optional (`None` by default). -/
structure IndexFieldOptions where
  sort_options : Option SortOptions
  indexing : Option FieldIndexing
  storage : Option FieldStorage
  suggestions : Option Bool
  term_vector : Option FieldTermVector
  analyzer : Option String
deriving DecidableEq, Repr

/-- `IndexDefinition.__init__`'s stored attributes. `lock_mod` keeps the
source's (misspelled) attribute name. -/
structure IndexDefinition where
  name : Option String
  configuration : List (String × String)
  reduce : Option String
  index_id : Int
  is_test_index : Bool
  lock_mod : Option IndexLockMode
  priority : Option IndexPriority
  maps : PyColl
  fields : List (String × IndexFieldOptions)
deriving DecidableEq, Repr

/-- The `index_map` argument of `IndexDefinition.__init__`: a string or a
collection of strings (`:type str or tuple`). -/
inductive IndexMapArg where
  | str (s : String)
  | coll (xs : List String)
deriving DecidableEq, Repr

/-- `IndexDefinition.__init__(name, index_map, configuration=None, **kwargs)`.
`Option` parameters model keyword arguments read with `kwargs.get`: `none`
means the keyword was absent (or, equivalently for the `None`-defaulted ones,
passed as `None`). `maps` is `(index_map,)` for a string argument and
`tuple(set(index_map))` otherwise — in both cases a tuple. No validation of
any kind is performed: the constructor raises nothing for string or
collection arguments. -/
def IndexDefinition.init (name : Option String) (index_map : IndexMapArg)
    (configuration : Option (List (String × String)))
    (reduce : Option String) (index_id : Option Int)
    (is_test_index : Option Bool) (lock_mod : Option IndexLockMode)
    (priority : Option IndexPriority)
    (fields : Option (List (String × IndexFieldOptions))) : IndexDefinition :=
  { name := name
    configuration := configuration.getD []
    reduce := reduce
    index_id := index_id.getD 0
    is_test_index := is_test_index.getD false
    lock_mod := lock_mod
    priority := priority
    maps := match index_map with
      | .str s => PyColl.tup [s]
      | .coll xs => PyColl.tup (pySetDedup xs)
    fields := fields.getD [] }

/-- `s.startswith(p)`: the characters of `p` are a prefix of those of `s`. -/
def pyStartsWith (s p : String) : Bool := p.data.isPrefixOf s.data

/-- `self.name and self.name.startswith('Auto/')` as a total Boolean:
`None` and `""` are falsy, and `and` short-circuits, so `.startswith` is only
ever called on a non-empty string. -/
def optStartsAuto : Option String → Bool
  | Option.none => false
  | Option.some s => (if s = "" then false else true) && pyStartsWith s "Auto/"

/-- `self.name and self.name.startswith('Auto/')` with the attribute access
modelled explicitly: evaluating `.startswith` on `None` would raise
`AttributeError`, but the short-circuit makes that branch unreachable. -/
def optStartsAutoExc (name : Option String) : Except PyError Bool :=
  if pyTruthyStr name then
    match name with
    | Option.none => Except.error PyError.attributeError
    | Option.some s => Except.ok (pyStartsWith s "Auto/")
  else Except.ok false

/-- The `type` property of `IndexDefinition`: starts from `"Map"`, switches to
`"AutoMap"` (plus `"Reduce"` when `self.reduce` is truthy) when the name is
truthy and starts with `"Auto/"`, and returns `"MapReduce"` when only the
reduce is truthy. Evaluated fresh on every read; nothing is cached. -/
def IndexDefinition.type (d : IndexDefinition) : String :=
  if optStartsAuto d.name then
    if pyTruthyStr d.reduce then "AutoMap" ++ "Reduce" else "AutoMap"
  else if pyTruthyStr d.reduce then "MapReduce"
  else "Map"

/-- The `type` property with the possible dynamic failure of
`self.name.startswith` made explicit (used to state that reading `type`
never raises). -/
def IndexDefinition.typeExc (d : IndexDefinition) : Except PyError String := do
  let auto ← optStartsAutoExc d.name
  if auto then
    if pyTruthyStr d.reduce then pure ("AutoMap" ++ "Reduce") else pure "AutoMap"
  else if pyTruthyStr d.reduce then pure "MapReduce"
  else pure "Map"

/-- The `is_map_reduce` property: `True if self.reduce else False`. -/
def IndexDefinition.is_map_reduce (d : IndexDefinition) : Bool :=
  pyTruthyStr d.reduce

/-- The `map` getter: when `self.maps` is not a string, `self.maps[0]`
(IndexError on an empty tuple, TypeError on a set, which is not
subscriptable); when it is a string, the string itself. -/
def IndexDefinition.map_get (d : IndexDefinition) : Except PyError String :=
  match d.maps with
  | .tup [] => Except.error PyError.indexError
  | .tup (x :: _) => Except.ok x
  | .pyset _ => Except.error PyError.typeError
  | .str s => Except.ok s

/-- The `map` setter: `if len(self.maps) != 0: self.maps.pop()` then
`self.maps.add(value)`. `pop`/`add` are `set` methods; on the tuple that
`__init__` stores in `maps` both raise `AttributeError`. -/
def IndexDefinition.map_set (d : IndexDefinition) (v : String) :
    Except PyError IndexDefinition := do
  let m ← if d.maps.pyLen ≠ 0 then d.maps.pyPop else pure d.maps
  let m2 ← m.pyAdd v
  pure { d with maps := m2 }

/-- JSON-shaped values: what the `to_json` dicts hold once encoded. A Python
tuple of strings encodes as an array, a dict as an object (keys in
insertion order). -/
inductive JValue where
  | null
  | bool (b : Bool)
  | int (n : Int)
  | str (s : String)
  | arr (xs : List JValue)
  | obj (kvs : List (String × JValue))

/-- The keys of a JSON object, in order. -/
def JValue.keys : JValue → List String
  | .obj kvs => kvs.map Prod.fst
  | _ => []

/-- Lookup of a key in a JSON object. -/
def JValue.get : JValue → String → Option JValue
  | .obj kvs, k => (kvs.find? (fun kv => kv.fst == k)).map Prod.snd
  | _, _ => Option.none

/-- `str(x) if x else None` for an optional enum attribute: every enum member
is truthy in Python, `None` is falsy; `str` calls `__str__ = self.value`. -/
def jStrOrNull (value : α → String) : Option α → JValue
  | Option.none => JValue.null
  | Option.some m => JValue.str (value m)

/-- A pass-through optional string (`None` becomes null). -/
def jOptStr : Option String → JValue
  | Option.none => JValue.null
  | Option.some s => JValue.str s

/-- A pass-through optional bool (`None` becomes null). -/
def jOptBool : Option Bool → JValue
  | Option.none => JValue.null
  | Option.some b => JValue.bool b

/-- `IndexFieldOptions.to_json`: the seven keys in source order; unset
attributes become null, `Spatial` is the literal `None`, `Suggestions` is
passed through as-is. -/
def IndexFieldOptions.to_json (o : IndexFieldOptions) : JValue :=
  JValue.obj
    [("Analyzer", jOptStr o.analyzer),
     ("Indexing", jStrOrNull FieldIndexing.pyStr o.indexing),
     ("Sort", jStrOrNull SortOptions.pyStr o.sort_options),
     ("Spatial", JValue.null),
     ("Storage", jStrOrNull FieldStorage.pyStr o.storage),
     ("Suggestions", jOptBool o.suggestions),
     ("TermVector", jStrOrNull FieldTermVector.pyStr o.term_vector)]

/-- The JSON encoding of the `maps` value placed under `"Maps"`: a tuple or a
set of strings encodes as an array, a plain string as a string. -/
def PyColl.toJValue : PyColl → JValue
  | .tup xs => JValue.arr (xs.map JValue.str)
  | .pyset xs => JValue.arr (xs.map JValue.str)
  | .str s => JValue.str s

/-- `IndexDefinition.to_json`: the eleven keys in source order.
`Fields` is a dict comprehension serializing each field's options when
`len(self.fields) > 0`, and otherwise passes `self.fields` — the empty dict —
through; either way an object. `LockMode`/`Priority` are
`str(x) if x else None`; `OutputReduceToCollection` is the literal `None`;
`Type` is the `type` property. -/
def IndexDefinition.to_json (d : IndexDefinition) : JValue :=
  JValue.obj
    [("Configuration", JValue.obj (d.configuration.map
        (fun kv => (kv.fst, JValue.str kv.snd)))),
     ("Fields", if d.fields.length > 0 then
        JValue.obj (d.fields.map (fun kv => (kv.fst, kv.snd.to_json)))
      else JValue.obj []),
     ("IndexId", JValue.int d.index_id),
     ("IsTestIndex", JValue.bool d.is_test_index),
     ("LockMode", jStrOrNull IndexLockMode.pyStr d.lock_mod),
     ("Maps", d.maps.toJValue),
     ("Name", jOptStr d.name),
     ("Reduce", jOptStr d.reduce),
     ("OutputReduceToCollection", JValue.null),
     ("Priority", jStrOrNull IndexPriority.pyStr d.priority),
     ("Type", JValue.str d.type)]

/-- `timedelta`, as a count of microseconds (its exact internal resolution). -/
abbrev Timedelta := Int

/-- `timedelta(minutes=m)`. -/
def timedelta_minutes (m : Int) : Timedelta := m * 60 * 1000000

/-- Python truthiness of an optional `timedelta`: `None` and `timedelta(0)`
are falsy. -/
def pyTruthyTd : Option Timedelta → Bool
  | Option.none => false
  | Option.some t => if t = 0 then false else true

/-- `IndexQuery.__init__`'s stored attributes. `_page_size` and
`_page_size_set` model the private `self._page_size` and the name-mangled
`self.__page_size_set`; both are plain readable instance attributes. -/
structure IndexQuery where
  query : String
  total_size : Int
  skipped_results : Int
  _page_size : Int
  _page_size_set : Bool
  default_operator : Option QueryOperator
  sort_hints : List (String × String)
  sort_fields : List (String × String)
  fetch : List String
  wait_for_non_stale_results : Bool
  wait_for_non_stale_results_timeout : Option Timedelta
deriving DecidableEq, Repr

/-- `IndexQuery.__init__`: `_page_size = 128`, `__page_size_set = False`,
kwargs read with `kwargs.get` (`Option` parameters; `none` = absent, which
for `wait_for_non_stale_results` defaults to `False` and for the timeout to
`None`); then, once, `if self.wait_for_non_stale_results and not
self.wait_for_non_stale_results_timeout: self.wait_for_non_stale_results_timeout
= timedelta(minutes=15)`. -/
def IndexQuery.init (query : String) (total_size : Int) (skipped_results : Int)
    (default_operator : Option QueryOperator)
    (sort_hints : List (String × String)) (sort_fields : List (String × String))
    (fetch : List String) (wait_for_non_stale_results : Option Bool)
    (wait_for_non_stale_results_timeout : Option Timedelta) : IndexQuery :=
  let wait := wait_for_non_stale_results.getD false
  let t := wait_for_non_stale_results_timeout
  { query := query
    total_size := total_size
    skipped_results := skipped_results
    _page_size := 128
    _page_size_set := false
    default_operator := default_operator
    sort_hints := sort_hints
    sort_fields := sort_fields
    fetch := fetch
    wait_for_non_stale_results := wait
    wait_for_non_stale_results_timeout :=
      if wait && !(pyTruthyTd t) then Option.some (timedelta_minutes 15) else t }

/-- The `page_size` property getter: `return self._page_size`. -/
def IndexQuery.page_size (q : IndexQuery) : Int := q._page_size

/-- The `page_size` property setter: stores the value and records that a
caller explicitly set it. -/
def IndexQuery.set_page_size (q : IndexQuery) (value : Int) : IndexQuery :=
  { q with _page_size := value, _page_size_set := true }

/-- Plain attribute assignment `q.wait_for_non_stale_results = b`: no property
is defined for this attribute, so assignment touches nothing else — in
particular the construction-time timeout rule is not re-applied. -/
def IndexQuery.set_wait_for_non_stale_results (q : IndexQuery) (b : Bool) :
    IndexQuery :=
  { q with wait_for_non_stale_results := b }

/-! ## The spec's classification table and its two inputs -/

/-- The spec's §4.3 table, written from the spec's words: a pure function of
the two booleans `is_auto` and `has_reduce`. -/
def spec_type_table (is_auto : Bool) (has_reduce : Bool) : String :=
  match is_auto, has_reduce with
  | false, false => "Map"
  | false, true => "MapReduce"
  | true, false => "AutoMap"
  | true, true => "AutoMapReduce"

/-- The spec's `is_auto`: the name starts with `"Auto/"` (a missing name
starts with nothing). -/
def claim_is_auto (d : IndexDefinition) : Bool :=
  match d.name with
  | Option.none => false
  | Option.some s => pyStartsWith s "Auto/"

/-- The spec's `has_reduce`: the reduce statement is present and non-empty. -/
def claim_has_reduce (d : IndexDefinition) : Bool := pyTruthyStr d.reduce

theorem optStartsAuto_eq_claim (n : Option String) :
    optStartsAuto n =
      (match n with
        | Option.none => false
        | Option.some s => pyStartsWith s "Auto/") := by
  cases n with
  | none => rfl
  | some s =>
    simp only [optStartsAuto]
    by_cases hs : s = ""
    · subst hs; decide
    · simp [hs]

theorem optStartsAutoExc_eq_ok (n : Option String) :
    optStartsAutoExc n = Except.ok (optStartsAuto n) := by
  cases n with
  | none => rfl
  | some s =>
    unfold optStartsAutoExc optStartsAuto pyTruthyStr
    by_cases hs : s = "" <;> simp [hs]

theorem type_eq_spec_table (d : IndexDefinition) :
    d.type = spec_type_table (claim_is_auto d) (claim_has_reduce d) := by
  have ha : optStartsAuto d.name = claim_is_auto d := by
    rw [optStartsAuto_eq_claim]; rfl
  unfold IndexDefinition.type spec_type_table claim_has_reduce
  rw [ha]
  cases claim_is_auto d <;> cases pyTruthyStr d.reduce <;> rfl

theorem type_mem_four_tokens (d : IndexDefinition) :
    d.type ∈ (["Map", "MapReduce", "AutoMap", "AutoMapReduce"] : List String) := by
  rw [type_eq_spec_table d]
  cases claim_is_auto d <;> cases claim_has_reduce d <;> decide

/-- C1: the `type` property equals the spec's four-row table applied to
`is_auto = name starts with "Auto/"` and `has_reduce = reduce non-empty`,
for every `IndexDefinition`; and at the two edge cases, a name exactly
`"Auto/"` is classified auto (type `"AutoMap"` without a reduce) and a name
containing `"Auto/"` not as a prefix is classified not auto (type `"Map"`
without a reduce, `"MapReduce"` with one). -/
theorem C1_type_classification_table :
    (∀ d : IndexDefinition,
      d.type = spec_type_table (claim_is_auto d) (claim_has_reduce d)) ∧
    (let e1 := IndexDefinition.init (Option.some "Auto/") (IndexMapArg.str "m")
      Option.none Option.none Option.none Option.none Option.none Option.none
      Option.none
     claim_is_auto e1 = true ∧ e1.type = "AutoMap") ∧
    (let e2 := IndexDefinition.init (Option.some "Users/Auto/x")
      (IndexMapArg.str "m") Option.none Option.none Option.none Option.none
      Option.none Option.none Option.none
     claim_is_auto e2 = false ∧ e2.type = "Map") ∧
    (let e3 := IndexDefinition.init (Option.some "Users/Auto/x")
      (IndexMapArg.str "m") Option.none (Option.some "reduce stmt") Option.none
      Option.none Option.none Option.none Option.none
     claim_is_auto e3 = false ∧ e3.type = "MapReduce") := by
  refine ⟨type_eq_spec_table, ⟨?_, ?_⟩, ⟨?_, ?_⟩, ⟨?_, ?_⟩⟩ <;> decide

/-- C10: reading `type` is total — the `Except`-valued embedding, which makes
the potential `None.startswith` AttributeError explicit, always returns
`Except.ok` of the pure result — and a definition whose name is `None` or
`""` is classified as a non-auto index: `"MapReduce"` when the reduce is
non-empty and `"Map"` otherwise. -/
theorem C10_type_total_without_name :
    (∀ d : IndexDefinition, d.typeExc = Except.ok d.type) ∧
    (∀ d : IndexDefinition, d.name = Option.none →
      d.type = if claim_has_reduce d then "MapReduce" else "Map") ∧
    (∀ d : IndexDefinition, d.name = Option.some "" →
      d.type = if claim_has_reduce d then "MapReduce" else "Map") := by
  refine ⟨?_, ?_, ?_⟩
  · intro d
    unfold IndexDefinition.typeExc IndexDefinition.type
    rw [optStartsAutoExc_eq_ok]
    cases optStartsAuto d.name <;> cases pyTruthyStr d.reduce <;> rfl
  · intro d h
    unfold IndexDefinition.type claim_has_reduce
    rw [h]
    rfl
  · intro d h
    unfold IndexDefinition.type claim_has_reduce
    rw [h]
    cases hr : pyTruthyStr d.reduce <;> simp [optStartsAuto]

/-! ## The `maps` collection: constructor, getter, setter -/

/-- C2: the `map` setter at the failing inputs. `__init__` always stores
`maps` as a tuple, while the setter calls the `set` methods `pop` and `add`;
on a tuple both raise `AttributeError`, so assigning through the setter
never replaces anything — it always fails, both on a one-statement
definition (the `pop` call) and on a zero-statement one (the `add` call). -/
theorem C2_map_setter_always_raises :
    (IndexDefinition.init (Option.some "idx")
        (IndexMapArg.str "from doc in docs select doc") Option.none Option.none
        Option.none Option.none Option.none Option.none Option.none).map_set
        "from doc in docs select doc.name" =
      Except.error PyError.attributeError ∧
    (IndexDefinition.init (Option.some "idx") (IndexMapArg.coll []) Option.none
        Option.none Option.none Option.none Option.none Option.none
        Option.none).map_set "from doc in docs select doc.name" =
      Except.error PyError.attributeError := ⟨rfl, rfl⟩

/-- C3 counterexample: constructing an `IndexDefinition` with zero map
statements does not fail — there is no `InvalidDefinition` (or any other)
check in `__init__` — and yields the empty maps tuple, so the claimed
non-emptiness invariant does not hold for this constructed definition. -/
theorem C3_counterexample_empty_construction_succeeds :
    (IndexDefinition.init (Option.some "Orders/All") (IndexMapArg.coll [])
        Option.none Option.none Option.none Option.none Option.none Option.none
        Option.none).maps = PyColl.tup [] ∧
    (IndexDefinition.init (Option.some "Orders/All") (IndexMapArg.coll [])
        Option.none Option.none Option.none Option.none Option.none Option.none
        Option.none).maps.pyLen = 0 := ⟨rfl, rfl⟩

/-- C3 amended: construction performs no validation at all. With an empty
collection of map statements it succeeds, with `maps` the empty tuple (so
the collection can be empty after construction); a string map argument
yields the singleton tuple, and a collection argument yields the tuple of
its distinct statements. -/
theorem C3_amended_construction_never_validates :
    (∀ name cfg r iid iti lm pr f,
      (IndexDefinition.init name (IndexMapArg.coll []) cfg r iid iti lm pr
          f).maps = PyColl.tup []) ∧
    (∀ name s cfg r iid iti lm pr f,
      (IndexDefinition.init name (IndexMapArg.str s) cfg r iid iti lm pr
          f).maps = PyColl.tup [s]) ∧
    (∀ name xs cfg r iid iti lm pr f,
      (IndexDefinition.init name (IndexMapArg.coll xs) cfg r iid iti lm pr
          f).maps = PyColl.tup (pySetDedup xs)) :=
  ⟨fun _ _ _ _ _ _ _ _ => rfl, fun _ _ _ _ _ _ _ _ _ => rfl,
    fun _ _ _ _ _ _ _ _ _ => rfl⟩

/-- C4 counterexample: on a definition holding two map statements, reading
the single-value `map` accessor does not fail with any `AmbiguousMapAccess`
condition — it returns `self.maps[0]`, the first element of the tuple. -/
theorem C4_counterexample_two_maps_reads_first :
    (IndexDefinition.init (Option.some "idx")
        (IndexMapArg.coll ["mapA", "mapB"]) Option.none Option.none Option.none
        Option.none Option.none Option.none Option.none).maps.pyLen = 2 ∧
    (IndexDefinition.init (Option.some "idx")
        (IndexMapArg.coll ["mapA", "mapB"]) Option.none Option.none Option.none
        Option.none Option.none Option.none Option.none).map_get =
      Except.ok "mapA" := ⟨rfl, rfl⟩

/-- C4 amended: whenever `maps` is a non-empty tuple — in particular for
every constructed definition with at least one map statement — the
single-value `map` accessor never fails: it returns the first element of
the tuple, which is the unique statement when exactly one is present and an
arbitrary (the first) one when several are. -/
theorem C4_amended_map_get_returns_first (d : IndexDefinition) (x : String)
    (xs : List String) (h : d.maps = PyColl.tup (x :: xs)) :
    d.map_get = Except.ok x := by
  unfold IndexDefinition.map_get
  rw [h]

theorem C4_amended_map_get_returns_first_witness :
    (IndexDefinition.init (Option.some "idx")
        (IndexMapArg.coll ["mapA", "mapB"]) Option.none Option.none Option.none
        Option.none Option.none Option.none Option.none).map_get =
      Except.ok "mapA" :=
  C4_amended_map_get_returns_first _ "mapA" ["mapB"] rfl

/-! ## IndexQuery: staleness-wait rule and page size -/

/-- C5: constructing an `IndexQuery` with `wait_for_non_stale_results` true
and no explicit timeout sets the timeout to exactly
`timedelta(minutes=15)`; with the flag false (passed or absent, the
default) the timeout is stored exactly as given, whatever it is; and the
rule is applied only at construction — later plain assignment of the wait
flag leaves the timeout untouched. -/
theorem C5_wait_timeout_construction_rule :
    (∀ q ts sr dop sh sf f,
      (IndexQuery.init q ts sr dop sh sf f (Option.some true)
          Option.none).wait_for_non_stale_results_timeout =
        Option.some (timedelta_minutes 15)) ∧
    (∀ q ts sr dop sh sf f t,
      (IndexQuery.init q ts sr dop sh sf f (Option.some false)
          t).wait_for_non_stale_results_timeout = t) ∧
    (∀ q ts sr dop sh sf f t,
      (IndexQuery.init q ts sr dop sh sf f Option.none
          t).wait_for_non_stale_results_timeout = t) ∧
    (∀ iq b,
      (IndexQuery.set_wait_for_non_stale_results iq
          b).wait_for_non_stale_results_timeout =
        iq.wait_for_non_stale_results_timeout) := by
  refine ⟨?_, ?_, ?_, ?_⟩ <;> intros <;> rfl

/-- C6: a freshly constructed `IndexQuery` reads `page_size` as 128 with the
"explicitly set" flag (`__page_size_set`, a readable instance attribute)
false; assigning any value through the `page_size` setter — including 128 —
stores that value and turns the flag on. -/
theorem C6_page_size_default_and_explicit_flag :
    (∀ q ts sr dop sh sf f w t,
      (IndexQuery.init q ts sr dop sh sf f w t).page_size = 128 ∧
      (IndexQuery.init q ts sr dop sh sf f w t)._page_size_set = false) ∧
    (∀ iq v,
      (IndexQuery.set_page_size iq v).page_size = v ∧
      (IndexQuery.set_page_size iq v)._page_size_set = true) := by
  refine ⟨?_, ?_⟩ <;> intros <;> exact ⟨rfl, rfl⟩

/-! ## Serialization contracts -/

/-- C7: `IndexFieldOptions.to_json` yields exactly the keys `Analyzer`,
`Indexing`, `Sort`, `Spatial`, `Storage`, `Suggestions`, `TermVector` (in
that order); every unset attribute serializes as null (never omitted, never
defaulted), each set enumeration attribute as its canonical string,
`Spatial` is always null, `Suggestions` is passed through as-is; and with
every attribute unset, every key is present with value null. -/
theorem C7_field_options_serialization (o : IndexFieldOptions) :
    o.to_json.keys = ["Analyzer", "Indexing", "Sort", "Spatial", "Storage",
      "Suggestions", "TermVector"] ∧
    o.to_json.get "Analyzer" = Option.some (match o.analyzer with
      | Option.none => JValue.null
      | Option.some s => JValue.str s) ∧
    o.to_json.get "Indexing" = Option.some (match o.indexing with
      | Option.none => JValue.null
      | Option.some m => JValue.str m.pyStr) ∧
    o.to_json.get "Sort" = Option.some (match o.sort_options with
      | Option.none => JValue.null
      | Option.some m => JValue.str m.pyStr) ∧
    o.to_json.get "Spatial" = Option.some JValue.null ∧
    o.to_json.get "Storage" = Option.some (match o.storage with
      | Option.none => JValue.null
      | Option.some m => JValue.str m.pyStr) ∧
    o.to_json.get "Suggestions" = Option.some (match o.suggestions with
      | Option.none => JValue.null
      | Option.some b => JValue.bool b) ∧
    o.to_json.get "TermVector" = Option.some (match o.term_vector with
      | Option.none => JValue.null
      | Option.some m => JValue.str m.pyStr) ∧
    (IndexFieldOptions.mk Option.none Option.none Option.none Option.none
        Option.none Option.none).to_json =
      JValue.obj [("Analyzer", JValue.null), ("Indexing", JValue.null),
        ("Sort", JValue.null), ("Spatial", JValue.null),
        ("Storage", JValue.null), ("Suggestions", JValue.null),
        ("TermVector", JValue.null)] := by
  obtain ⟨so, ix, st, sg, tv, an⟩ := o
  refine ⟨rfl, ?_, ?_, ?_, rfl, ?_, ?_, ?_, rfl⟩
  · cases an <;> rfl
  · cases ix <;> rfl
  · cases so <;> rfl
  · cases st <;> rfl
  · cases sg <;> rfl
  · cases tv <;> rfl

/-- C8: `IndexDefinition.to_json` yields exactly the eleven documented keys
(in source order); `Fields` is the object mapping each field name to its
options' serialization — the empty object when no fields were set, never
null; `LockMode` and `Priority` are the canonical enumeration string or
null; `OutputReduceToCollection` is always null; and `Type` is the `type`
classification, always one of the four tokens. -/
theorem C8_index_definition_serialization (d : IndexDefinition) :
    d.to_json.keys = ["Configuration", "Fields", "IndexId", "IsTestIndex",
      "LockMode", "Maps", "Name", "Reduce", "OutputReduceToCollection",
      "Priority", "Type"] ∧
    d.to_json.get "Fields" = Option.some (JValue.obj (d.fields.map
      (fun kv => (kv.fst, kv.snd.to_json)))) ∧
    d.to_json.get "LockMode" = Option.some (match d.lock_mod with
      | Option.none => JValue.null
      | Option.some m => JValue.str m.pyStr) ∧
    d.to_json.get "Priority" = Option.some (match d.priority with
      | Option.none => JValue.null
      | Option.some m => JValue.str m.pyStr) ∧
    d.to_json.get "OutputReduceToCollection" = Option.some JValue.null ∧
    d.to_json.get "Type" = Option.some (JValue.str d.type) ∧
    d.type ∈ (["Map", "MapReduce", "AutoMap", "AutoMapReduce"] : List String)
    := by
  obtain ⟨n, cfg, r, iid, iti, lm, pr, mp, fs⟩ := d
  refine ⟨rfl, ?_, ?_, ?_, rfl, rfl, ?_⟩
  · cases fs with
    | nil => rfl
    | cons a l => simp [IndexDefinition.to_json, JValue.get, List.find?]
  · cases lm <;> rfl
  · cases pr <;> rfl
  · exact type_mem_four_tokens _

end PyRavenDB
